import Mathlib

/-!
Shallow embedding of the AdVision analytics-aggregation and A/B-testing core
(backend/core/models.py, backend/core/services/ab_testing.py,
backend/core/views.py), together with theorems settling the frozen claims
about it.

Numeric conventions: Python ints become `Nat`, Python floats and Decimals
become `Rat` (exact rational arithmetic as the idealised semantics of the
source's decimal formulas), and Python's built-in `round(x, n)` becomes
round-half-to-even on rationals.  Division by zero in `Rat` yields 0, which
never matters below because every division the claims touch is either
guarded by the source or exercised only at nonzero denominators.
-/

/-- Round a rational to the nearest integer, ties to even — the semantics of
Python's built-in `round` on exact values. -/
def pyRound (x : ℚ) : ℤ :=
  if x - ⌊x⌋ < 1/2 then ⌊x⌋
  else if 1/2 < x - ⌊x⌋ then ⌊x⌋ + 1
  else if ⌊x⌋ % 2 = 0 then ⌊x⌋ else ⌊x⌋ + 1

/-- Python's `round(x, 2)`. -/
def round2 (x : ℚ) : ℚ := (pyRound (x * 100) : ℚ) / 100

/-- Python's `round(x, 1)` (used only in an f-string of `get_recommendation`). -/
def round1 (x : ℚ) : ℚ := (pyRound (x * 10) : ℚ) / 10

/-- One row of `DailyAnalytics` (core/models.py): the four raw counters of a
campaign day plus the stored derived fields `ctr`, `cpc`, `cpa`
(model defaults: all zero). -/
structure DailyAnalytics where
  impressions : ℕ
  clicks : ℕ
  conversions : ℕ
  spend : ℚ
  ctr : ℚ
  cpc : ℚ
  cpa : ℚ
deriving DecidableEq

/-- `DailyAnalytics.save` (core/models.py lines 141-148): recompute each
derived field under its positivity guard, then persist.  The returned record
is the persisted row. -/
def DailyAnalytics.save (self : DailyAnalytics) : DailyAnalytics :=
  let self := if self.impressions > 0 then
    { self with ctr := round2 ((self.clicks : ℚ) / (self.impressions : ℚ) * 100) } else self
  let self := if self.clicks > 0 then
    { self with cpc := round2 (self.spend / (self.clicks : ℚ)) } else self
  let self := if self.conversions > 0 then
    { self with cpa := round2 (self.spend / (self.conversions : ℚ)) } else self
  self

/-- `CampaignAnalyticsSummary` (core/models.py): the materialised per-campaign
rollup (model defaults: all zero). -/
structure CampaignAnalyticsSummary where
  total_impressions : ℕ
  total_clicks : ℕ
  total_conversions : ℕ
  total_spend : ℚ
  avg_ctr : ℚ
  avg_cpc : ℚ
  avg_conversion_rate : ℚ
  roas : ℚ
  performance_score : ℕ
deriving DecidableEq

/-- `CampaignAnalyticsSummary._calculate_performance_score`
(core/models.py lines 195-221). -/
def CampaignAnalyticsSummary.calculate_performance_score
    (self : CampaignAnalyticsSummary) : ℕ :=
  let score : ℕ :=
    (if self.avg_ctr ≥ 5 then 30 else if self.avg_ctr ≥ 3 then 20
      else if self.avg_ctr ≥ 1 then 10 else 0)
    + (if self.avg_conversion_rate ≥ 10 then 30 else if self.avg_conversion_rate ≥ 5 then 20
      else if self.avg_conversion_rate ≥ 2 then 10 else 0)
    + (if self.roas ≥ 5 then 40 else if self.roas ≥ 3 then 30
      else if self.roas ≥ 2 then 20 else if self.roas ≥ 1 then 10 else 0)
  min score 100

/-- `CampaignAnalyticsSummary.update_metrics` (core/models.py lines 173-193):
recompute the four totals from the campaign's `DailyAnalytics` rows, then
recompute each derived average under its positivity guard on the new totals
(the field keeps its prior value when the guard fails), recompute the
performance score, and persist.  `daily_data` is the campaign's full record
set; the returned summary is the persisted row. -/
def CampaignAnalyticsSummary.update_metrics (daily_data : List DailyAnalytics)
    (self : CampaignAnalyticsSummary) : CampaignAnalyticsSummary :=
  let self := { self with
    total_impressions := (daily_data.map (fun d : DailyAnalytics => d.impressions)).sum,
    total_clicks := (daily_data.map (fun d : DailyAnalytics => d.clicks)).sum,
    total_conversions := (daily_data.map (fun d : DailyAnalytics => d.conversions)).sum,
    total_spend := (daily_data.map (fun d : DailyAnalytics => d.spend)).sum }
  let self := if self.total_impressions > 0 then
    { self with
      avg_ctr := round2 ((self.total_clicks : ℚ) / (self.total_impressions : ℚ) * 100) }
    else self
  let self := if self.total_clicks > 0 then
    { self with
      avg_cpc := round2 (self.total_spend / (self.total_clicks : ℚ)),
      avg_conversion_rate :=
        round2 ((self.total_conversions : ℚ) / (self.total_clicks : ℚ) * 100) }
    else self
  let self := if self.total_spend > 0 then
    { self with
      roas := round2 (((self.total_conversions : ℚ) * 50) / self.total_spend) }
    else self
  { self with performance_score := self.calculate_performance_score }

/-- A `CampaignAnalyticsSummary` with every field at its model default. -/
def zeroSummary : CampaignAnalyticsSummary := ⟨0, 0, 0, 0, 0, 0, 0, 0, 0⟩

/-- Prior summary state used to refute claim C1: every total zero but a stale
`avg_ctr` of 5 left over from since-deleted records. -/
def staleSummary : CampaignAnalyticsSummary := ⟨0, 0, 0, 0, 5, 0, 0, 0, 30⟩

/-- Row used to refute claim C2: an upsert has overwritten all four counters
with zeros while the stored derived fields still hold the values computed
from the previous counters (impressions=100, clicks=10, conversions=4,
spend=100). -/
def staleDaily : DailyAnalytics := ⟨0, 0, 0, 0, 10, 10, 25⟩

/-- Scenario-2 fixture: day 1 of the two-record campaign. -/
def day1 : DailyAnalytics := ⟨1000, 40, 4, 100, 0, 0, 0⟩

/-- Scenario-2 fixture: day 2 of the two-record campaign. -/
def day2 : DailyAnalytics := ⟨2000, 60, 6, 150, 0, 0, 0⟩

/-- Claim C1 (counterexample): with an empty record set, `update_metrics`
zeroes all four totals, but `performance_score` is recomputed from the
retained derived averages, so a summary with a stale `avg_ctr` of 5 ends with
score 30, not 0 — the result is not a pure function of the (empty) record
set. -/
theorem C1_counterexample :
    (CampaignAnalyticsSummary.update_metrics [] staleSummary).total_impressions = 0 ∧
    (CampaignAnalyticsSummary.update_metrics [] staleSummary).total_clicks = 0 ∧
    (CampaignAnalyticsSummary.update_metrics [] staleSummary).total_conversions = 0 ∧
    (CampaignAnalyticsSummary.update_metrics [] staleSummary).total_spend = 0 ∧
    (CampaignAnalyticsSummary.update_metrics [] staleSummary).performance_score = 30 ∧
    (CampaignAnalyticsSummary.update_metrics [] staleSummary).performance_score ≠ 0 := by
  refine ⟨rfl, rfl, rfl, rfl, ?_, ?_⟩ <;>
    norm_num [CampaignAnalyticsSummary.update_metrics,
      CampaignAnalyticsSummary.calculate_performance_score, staleSummary]

/-- Claim C1 (amended): with an empty record set, `update_metrics` zeroes all
four totals and leaves every derived average at its prior value, and
`performance_score` is recomputed from those retained averages — it is 0 only
when the prior averages sit below every scoring band (as in a freshly zeroed
summary), not for every prior state. -/
theorem C1_empty_records_amended (s : CampaignAnalyticsSummary) :
    CampaignAnalyticsSummary.update_metrics [] s =
      { s with total_impressions := 0, total_clicks := 0, total_conversions := 0,
               total_spend := 0,
               performance_score := s.calculate_performance_score } := by
  rfl

/-- Claim C2 (counterexample): an upsert that overwrites previously positive
counters with zeros leaves the stale derived fields in place — on a row with
`impressions = 0` but a stored `ctr` of 10, `save` keeps `ctr = 10` instead
of the 0 the claim requires. -/
theorem C2_counterexample :
    staleDaily.impressions = 0 ∧
    (DailyAnalytics.save staleDaily).ctr = 10 ∧
    (DailyAnalytics.save staleDaily).ctr ≠ 0 := by
  refine ⟨rfl, rfl, by norm_num [DailyAnalytics.save, staleDaily]⟩

/-- Claim C2 (amended): `save` recomputes each derived field only when its
denominator is positive and otherwise retains the previously stored value
(so the claim's `else 0` branch holds only when the stored value is already
0, e.g. for a freshly created row); the four raw counters are persisted
unchanged. -/
theorem C2_save_amended (r : DailyAnalytics) :
    (r.save).impressions = r.impressions ∧ (r.save).clicks = r.clicks ∧
    (r.save).conversions = r.conversions ∧ (r.save).spend = r.spend ∧
    (r.save).ctr =
      (if r.impressions > 0 then round2 ((r.clicks : ℚ) / (r.impressions : ℚ) * 100)
        else r.ctr) ∧
    (r.save).cpc = (if r.clicks > 0 then round2 (r.spend / (r.clicks : ℚ)) else r.cpc) ∧
    (r.save).cpa =
      (if r.conversions > 0 then round2 (r.spend / (r.conversions : ℚ)) else r.cpa) := by
  unfold DailyAnalytics.save
  split_ifs <;> simp_all

/-- Claim C4: recomputing the summary twice from the same fixed record set
yields a summary identical to recomputing it once — `update_metrics` is
idempotent and never double-counts. -/
theorem C4_update_metrics_idempotent (daily_data : List DailyAnalytics)
    (s : CampaignAnalyticsSummary) :
    CampaignAnalyticsSummary.update_metrics daily_data
        (CampaignAnalyticsSummary.update_metrics daily_data s) =
      CampaignAnalyticsSummary.update_metrics daily_data s := by
  simp only [CampaignAnalyticsSummary.update_metrics]
  split_ifs <;> rfl

/-- Claim C8: on the two-record campaign (day 1: 1000/40/4/100, day 2:
2000/60/6/150) the recomputed summary has totals 3000/100/10/250,
`avg_ctr = 3.33` computed from the summed totals, `avg_cpc = 2.5`,
`avg_conversion_rate = 10`, `roas = 2` at 50 revenue per conversion, and
`performance_score = 70`. -/
theorem C8_scenario2 :
    CampaignAnalyticsSummary.update_metrics [day1, day2] zeroSummary =
      ⟨3000, 100, 10, 250, 333/100, 5/2, 10, 2, 70⟩ := by
  norm_num [CampaignAnalyticsSummary.update_metrics,
    CampaignAnalyticsSummary.calculate_performance_score, day1, day2, zeroSummary,
    round2, pyRound]

/-- `ABTestVariation` (core/models.py): one arm of an experiment — a name
plus cumulative counters. -/
structure ABTestVariation where
  name : String
  impressions : ℕ
  clicks : ℕ
  conversions : ℕ
  spend : ℚ
deriving DecidableEq

/-- `ABTestVariation.ctr` property (core/models.py lines 355-359). -/
def ABTestVariation.ctr (self : ABTestVariation) : ℚ :=
  if self.impressions = 0 then 0
  else round2 ((self.clicks : ℚ) / (self.impressions : ℚ) * 100)

/-- `ABTestVariation.conversion_rate` property (core/models.py lines 361-365). -/
def ABTestVariation.conversion_rate (self : ABTestVariation) : ℚ :=
  if self.clicks = 0 then 0
  else round2 ((self.conversions : ℚ) / (self.clicks : ℚ) * 100)

/-- The result dictionary of
`ABTestingService.calculate_statistical_significance`
(core/services/ab_testing.py).  The final fallback branch of the source
returns a dictionary with only the first three keys; it is embedded with the
remaining fields at 0. -/
structure SignificanceResult where
  significant : Bool
  p_value : ℚ
  winner : Option String
  confidence : ℚ
  metric_a : ℚ
  metric_b : ℚ
  improvement : ℚ
deriving DecidableEq

/-- The short-circuit dictionary returned by
`calculate_statistical_significance` when either variation lacks data. -/
def insufficientResult : SignificanceResult :=
  { significant := false, p_value := 1, winner := none, confidence := 0,
    metric_a := 0, metric_b := 0, improvement := 0 }

/-- One cell's contribution to the chi-square statistic with Yates'
continuity correction as scipy's `chi2_contingency` computes it for a 2×2
table: the observed count is moved toward the expected one by
`min(0.5, |O − E|)` before squaring. -/
def yatesCell (o e : ℚ) : ℚ := (max (|o - e| - 1/2) 0) ^ 2 / e

/-- Chi-square statistic of the 2×2 contingency table `[[a, b], [c, d]]` as
computed by `scipy.stats.chi2_contingency` (an external library call of
core/services/ab_testing.py) with its default Yates continuity correction,
which applies exactly when the table is 2×2 (one degree of freedom).
Expected counts are the usual `row·column/total` products.  (scipy raises on
a zero expected count; in this embedding such a cell contributes 0, a case no
claim exercises.) -/
def chi2_contingency (a b c d : ℚ) : ℚ :=
  let n := a + b + c + d
  let e11 := (a + b) * (a + c) / n
  let e12 := (a + b) * (b + d) / n
  let e21 := (c + d) * (a + c) / n
  let e22 := (c + d) * (b + d) / n
  yatesCell a e11 + yatesCell b e12 + yatesCell c e21 + yatesCell d e22

/-- The 0.95 quantile of the chi-square distribution with one degree of
freedom, 3.841458820694124 (as a rational).  Because the chi-square survival
function is strictly decreasing, scipy's `p_value < 0.05` holds exactly when
the statistic exceeds this constant. -/
def chi2_crit : ℚ := 3841458820694124 / 1000000000000000

/-- A computable stand-in for scipy's chi-square (dof 1) p-value, faithful to
the source's one use of the p-value as a significance decision: it returns a
value below 0.05 exactly when the true survival function would, i.e. exactly
when the statistic exceeds `chi2_crit`.  The service is parametrised over the
p-value function, so closed evaluations use this stand-in while universally
quantified theorems hold for scipy's true function as well. -/
def pvalStd (x : ℚ) : ℚ := if chi2_crit < x then 0 else 1

/-- The stand-in p-value is below the 0.05 cutoff exactly when the statistic
exceeds the one-degree-of-freedom critical value — the property the true
survival function has. -/
theorem pvalStd_lt_cutoff (x : ℚ) : pvalStd x < 1/20 ↔ chi2_crit < x := by
  unfold pvalStd
  split_ifs with h
  · simp [h]
  · simp [h]
    norm_num

/-- `ABTestingService.calculate_statistical_significance`
(core/services/ab_testing.py lines 10-110), parametrised by the p-value
function `pval` applied to the chi-square statistic. -/
def calculate_statistical_significance (pval : ℚ → ℚ)
    (variation_a variation_b : ABTestVariation) (metric : String) :
    SignificanceResult :=
  if metric = "ctr" then
    if variation_a.impressions = 0 ∨ variation_b.impressions = 0 then
      insufficientResult
    else
      let chi2 := chi2_contingency (variation_a.clicks)
        ((variation_a.impressions : ℚ) - (variation_a.clicks : ℚ))
        (variation_b.clicks)
        ((variation_b.impressions : ℚ) - (variation_b.clicks : ℚ))
      let p_value := pval chi2
      let is_significant : Bool := decide (p_value < 1/20)
      let ctr_a := variation_a.ctr
      let ctr_b := variation_b.ctr
      let winner : Option String :=
        if is_significant then some (if ctr_a > ctr_b then "A" else "B") else none
      let improvement : ℚ :=
        if 0 < max ctr_a ctr_b then |ctr_a - ctr_b| / max ctr_a ctr_b * 100 else 0
      { significant := is_significant, p_value := p_value, winner := winner,
        confidence := (1 - p_value) * 100, metric_a := ctr_a, metric_b := ctr_b,
        improvement := improvement }
  else if metric = "conversion_rate" then
    if variation_a.clicks = 0 ∨ variation_b.clicks = 0 then
      insufficientResult
    else
      let chi2 := chi2_contingency (variation_a.conversions)
        ((variation_a.clicks : ℚ) - (variation_a.conversions : ℚ))
        (variation_b.conversions)
        ((variation_b.clicks : ℚ) - (variation_b.conversions : ℚ))
      let p_value := pval chi2
      let is_significant : Bool := decide (p_value < 1/20)
      let conv_rate_a := variation_a.conversion_rate
      let conv_rate_b := variation_b.conversion_rate
      let winner : Option String :=
        if is_significant then
          some (if conv_rate_a > conv_rate_b then "A" else "B") else none
      let improvement : ℚ :=
        if 0 < max conv_rate_a conv_rate_b then
          |conv_rate_a - conv_rate_b| / max conv_rate_a conv_rate_b * 100 else 0
      { significant := is_significant, p_value := p_value, winner := winner,
        confidence := (1 - p_value) * 100, metric_a := conv_rate_a,
        metric_b := conv_rate_b, improvement := improvement }
  else
    { significant := false, p_value := 1, winner := none, confidence := 0,
      metric_a := 0, metric_b := 0, improvement := 0 }

/-- `ABTest` (core/models.py lines 308-338), restricted to the fields the
service reads or writes, together with its owned variations in insertion
order.  `winner` is the model's CharField (blank when unset, embedded as
`none`), `p_value` the nullable FloatField. -/
structure ABTest where
  status : String
  success_metric : String
  min_sample_size : ℕ
  winner : Option String
  is_significant : Bool
  p_value : Option ℚ
  variations : List ABTestVariation
deriving DecidableEq

/-- `ABTestingService.check_minimum_sample_size`
(core/services/ab_testing.py lines 112-121): false exactly when some
variation's impressions fall below the test's floor. -/
def check_minimum_sample_size (ab_test : ABTest) : Bool :=
  ab_test.variations.all (fun variation =>
    ! decide (variation.impressions < ab_test.min_sample_size))

/-- All ordered pairs `(l[i], l[j])` with `i < j`, enumerated exactly as the
source's nested `for i / for j in range(i+1, …)` loops. -/
def upperPairs {α : Type} : List α → List (α × α)
  | [] => []
  | x :: xs => xs.map (fun y => (x, y)) ++ upperPairs xs

/-- One entry of the `results` list built by `analyze_test`: the two
variation names and their comparison result. -/
structure PairResult where
  variation_a : String
  variation_b : String
  result : SignificanceResult
deriving DecidableEq

/-- Django's `variations.all().order_by('name')`: the variations stably
sorted by ascending name. -/
def order_by_name (variations : List ABTestVariation) : List ABTestVariation :=
  variations.mergeSort (fun a b => decide (a.name ≤ b.name))

/-- The pairwise `results` list of `analyze_test`
(core/services/ab_testing.py lines 140-155). -/
def pairwise_results (pval : ℚ → ℚ) (metric : String)
    (variations : List ABTestVariation) : List PairResult :=
  (upperPairs variations).map (fun pr =>
    { variation_a := pr.1.name, variation_b := pr.2.name,
      result := calculate_statistical_significance pval pr.1 pr.2 metric })

/-- The dictionary returned by `ABTestingService.analyze_test`, one
constructor per shape the source returns. -/
inductive AnalysisResult where
  | error (message : String)
  | insufficient_data (message : String)
  | completed (winner : Option String) (significant : Bool)
      (details : SignificanceResult)
  | inconclusive (message : String) (details : List PairResult)
deriving DecidableEq

/-- The f-string message of the insufficient-data branch of `analyze_test`,
naming the test's per-variation impression floor. -/
def needMessage (n : ℕ) : String :=
  s!"Need at least {n} impressions per variation"

/-- `ABTestingService.analyze_test` (core/services/ab_testing.py lines
123-175), parametrised by the p-value function.  The returned pair is the
result dictionary together with the `ABTest` as persisted after the call
(the source mutates and saves `ab_test` only in the significant branch). -/
def analyze_test (pval : ℚ → ℚ) (ab_test : ABTest) :
    AnalysisResult × ABTest :=
  if ab_test.status ≠ "running" then
    (AnalysisResult.error "Test is not running", ab_test)
  else if ¬ check_minimum_sample_size ab_test then
    (AnalysisResult.insufficient_data (needMessage ab_test.min_sample_size), ab_test)
  else
    let variations := order_by_name ab_test.variations
    if variations.length < 2 then
      (AnalysisResult.error "Need at least 2 variations", ab_test)
    else
      let results := pairwise_results pval ab_test.success_metric variations
      match results with
      | [] =>
        (AnalysisResult.inconclusive "No statistically significant winner yet" [],
          ab_test)
      | r :: rest =>
        if r.result.significant then
          let ab_test := { ab_test with
                           winner := r.result.winner,
                           is_significant := true,
                           p_value := some r.result.p_value }
          (AnalysisResult.completed r.result.winner true r.result, ab_test)
        else
          (AnalysisResult.inconclusive "No statistically significant winner yet"
            (r :: rest), ab_test)

/-- One entry of the list returned by `get_recommendation`. -/
structure TestRecommendation where
  type : String
  message : String
  priority : String
deriving DecidableEq

/-- The f-string message of the completed branch of `get_recommendation`,
with the winner value and the improvement percentage formatted to one
decimal. -/
def winnerMessage (winner : Option String) (improvement : ℚ) : String :=
  let w := match winner with | some w => w | none => "None"
  let imp := toString (round1 improvement)
  s!"Variation {w} is the clear winner with {imp}% improvement. Implement this variation."

/-- `ABTestingService.get_recommendation` (core/services/ab_testing.py lines
177-208): runs `analyze_test` and maps its status to a recommendation list.
The second component is the `ABTest` as persisted after the embedded
`analyze_test` call. -/
def get_recommendation (pval : ℚ → ℚ) (ab_test : ABTest) :
    List TestRecommendation × ABTest :=
  let res := analyze_test pval ab_test
  let recommendations : List TestRecommendation :=
    match res.1 with
    | AnalysisResult.insufficient_data _ =>
      [{ type := "wait",
         message := "Continue running the test until minimum sample size is reached",
         priority := "high" }]
    | AnalysisResult.completed winner significant details =>
      if significant then
        [{ type := "action", message := winnerMessage winner details.improvement,
           priority := "high" }]
      else []
    | AnalysisResult.inconclusive _ _ =>
      [{ type := "extend",
         message := "No clear winner yet. Consider running the test longer or increasing traffic.",
         priority := "medium" }]
    | AnalysisResult.error _ => []
  (recommendations, res.2)

/-- A variation with no data at all (zero impressions and clicks). -/
def varZero : ABTestVariation := ⟨"Z", 0, 0, 0, 0⟩

/-- A variation with plenty of data. -/
def varSome : ABTestVariation := ⟨"S", 1000, 50, 10, 0⟩

/-- Scenario-3 fixture, variation A: 8500 impressions, 340 clicks. -/
def varA : ABTestVariation := ⟨"A", 8500, 340, 0, 0⟩

/-- Scenario-3 fixture, variation B: 8500 impressions, 468 clicks. -/
def varB : ABTestVariation := ⟨"B", 8500, 468, 0, 0⟩

/-- A draft (never started) test over the scenario-3 variations. -/
def draftTest : ABTest := ⟨"draft", "ctr", 1000, none, false, none, [varA, varB]⟩

/-- Scenario-4 fixture: a running test whose variation "A" has only 500 of
the 1000 required impressions. -/
def lowSampleTest : ABTest :=
  ⟨"running", "ctr", 1000, none, false, none,
    [⟨"A", 500, 10, 1, 0⟩, ⟨"B", 1500, 20, 2, 0⟩]⟩

/-- Scenario-3 fixture: a running test over variations A and B with the
sample floor met. -/
def runningTest : ABTest := ⟨"running", "ctr", 1000, none, false, none, [varA, varB]⟩

/-- Claim C5: whenever either variation has zero impressions (metric `ctr`)
or zero clicks (metric `conversion_rate`), `calculate_statistical_significance`
short-circuits to the fixed insufficient-data result — significant=false,
p_value=1, winner=none, confidence=0 — before any chi-square computation,
for every p-value function. -/
theorem C5_short_circuit (pval : ℚ → ℚ)
    (variation_a variation_b : ABTestVariation) :
    (variation_a.impressions = 0 ∨ variation_b.impressions = 0 →
      calculate_statistical_significance pval variation_a variation_b "ctr" =
        insufficientResult) ∧
    (variation_a.clicks = 0 ∨ variation_b.clicks = 0 →
      calculate_statistical_significance pval variation_a variation_b
        "conversion_rate" = insufficientResult) := by
  constructor
  · rintro (h | h) <;> simp [calculate_statistical_significance, h]
  · rintro (h | h) <;> simp [calculate_statistical_significance, h]

/-- Witness for C5 at the concrete all-zero variation. -/
theorem C5_short_circuit_witness :
    calculate_statistical_significance pvalStd varZero varSome "ctr" =
      insufficientResult ∧
    calculate_statistical_significance pvalStd varZero varSome
      "conversion_rate" = insufficientResult :=
  ⟨(C5_short_circuit pvalStd varZero varSome).1 (Or.inl rfl),
   (C5_short_circuit pvalStd varZero varSome).2 (Or.inl rfl)⟩

/-- Claim C7: analyzing a non-running test returns the "Test is not running"
error and leaves the test untouched, and analyzing a running test in which
some variation is below the sample floor returns the insufficient-data
status naming the floor and leaves the test untouched — in both cases the
returned test state is exactly the input, so winner, is_significant,
p_value and status are unchanged. -/
theorem C7_gating (pval : ℚ → ℚ) (ab_test : ABTest) :
    (ab_test.status ≠ "running" →
      analyze_test pval ab_test =
        (AnalysisResult.error "Test is not running", ab_test)) ∧
    (ab_test.status = "running" → check_minimum_sample_size ab_test = false →
      analyze_test pval ab_test =
        (AnalysisResult.insufficient_data (needMessage ab_test.min_sample_size),
          ab_test)) := by
  constructor
  · intro h
    simp [analyze_test, h]
  · intro h1 h2
    simp [analyze_test, h1, h2]

/-- Witness for C7 at a concrete draft test and a concrete under-sampled
running test. -/
theorem C7_gating_witness :
    analyze_test pvalStd draftTest =
      (AnalysisResult.error "Test is not running", draftTest) ∧
    analyze_test pvalStd lowSampleTest =
      (AnalysisResult.insufficient_data (needMessage 1000), lowSampleTest) :=
  ⟨(C7_gating pvalStd draftTest).1 (by decide),
   (C7_gating pvalStd lowSampleTest).2 rfl (by decide)⟩

/-- Variation used to refute the raw-metric reading of claim C6: a million
impressions with 140 clicks (raw rate 0.014%, stored `ctr` property 0.01). -/
def varMillionA : ABTestVariation := ⟨"A", 1000000, 140, 0, 0⟩

/-- Variation used to refute the raw-metric reading of claim C6: a million
impressions with 60 clicks (raw rate 0.006%, stored `ctr` property 0.01). -/
def varMillionB : ABTestVariation := ⟨"B", 1000000, 60, 0, 0⟩

/-- Claim C6 (counterexample): with a million impressions each and 140
versus 60 clicks, the chi-square test is significant (statistic ≈ 31.6,
far above the 3.84 cutoff), yet both variations' rounded `ctr` properties
are 0.01, so the `ctr_a > ctr_b` comparison is false and the service names
"B" the winner even though B's raw click-through rate is strictly lower
than A's — the winner is not the variation with the higher raw metric
value. -/
theorem C6_counterexample :
    (calculate_statistical_significance pvalStd varMillionA varMillionB
      "ctr").significant = true ∧
    (calculate_statistical_significance pvalStd varMillionA varMillionB
      "ctr").winner = some "B" ∧
    varMillionB.ctr = varMillionA.ctr ∧
    (varMillionB.clicks : ℚ) / (varMillionB.impressions : ℚ) <
      (varMillionA.clicks : ℚ) / (varMillionA.impressions : ℚ) := by
  have hchi : chi2_crit < chi2_contingency 140 999860 60 999940 := by
    norm_num [chi2_contingency, yatesCell, chi2_crit]
  have hmain : calculate_statistical_significance pvalStd varMillionA varMillionB
      "ctr" =
      { significant := true, p_value := 0, winner := some "B", confidence := 100,
        metric_a := 1/100, metric_b := 1/100, improvement := 0 } := by
    norm_num [calculate_statistical_significance, varMillionA, varMillionB,
      ABTestVariation.ctr, round2, pyRound, pvalStd, hchi]
  refine ⟨?_, ?_, ?_, ?_⟩
  · rw [hmain]
  · rw [hmain]
  · norm_num [ABTestVariation.ctr, varMillionA, varMillionB, round2, pyRound]
  · norm_num [varMillionA, varMillionB]

/-- Claim C6 (amended): whenever the comparison is not significant the
winner is none (for every metric string), and whenever it is significant
the winner is "A" exactly when variation A's ROUNDED stored metric property
strictly exceeds B's, and "B" otherwise — so on a rounded tie (which the
raw-count chi-square test can still call significant) "B" is named even
though its metric does not exceed A's. -/
theorem C6_winner_amended (pval : ℚ → ℚ)
    (variation_a variation_b : ABTestVariation) :
    (∀ metric : String,
      (calculate_statistical_significance pval variation_a variation_b
        metric).significant = false →
      (calculate_statistical_significance pval variation_a variation_b
        metric).winner = none) ∧
    ((calculate_statistical_significance pval variation_a variation_b
        "ctr").significant = true →
      (calculate_statistical_significance pval variation_a variation_b
        "ctr").winner =
        some (if variation_a.ctr > variation_b.ctr then "A" else "B")) ∧
    ((calculate_statistical_significance pval variation_a variation_b
        "conversion_rate").significant = true →
      (calculate_statistical_significance pval variation_a variation_b
        "conversion_rate").winner =
        some (if variation_a.conversion_rate > variation_b.conversion_rate
          then "A" else "B")) := by
  refine ⟨?_, ?_, ?_⟩
  · intro metric h
    unfold calculate_statistical_significance at h ⊢
    split_ifs at h ⊢ <;> simp_all [insufficientResult]
  · intro h
    unfold calculate_statistical_significance at h ⊢
    split_ifs at h ⊢ <;> simp_all [insufficientResult]
  · intro h
    unfold calculate_statistical_significance at h ⊢
    split_ifs at h ⊢ <;> simp_all [insufficientResult]

/-- Witness for C6 at concrete inputs: the no-data pair is not significant
and names no winner; the million-impression pair is significant and names
"B". -/
theorem C6_winner_amended_witness :
    (calculate_statistical_significance pvalStd varZero varSome
      "ctr").winner = none ∧
    (calculate_statistical_significance pvalStd varMillionA varMillionB
      "ctr").winner =
      some (if varMillionA.ctr > varMillionB.ctr then "A" else "B") := by
  constructor
  · exact (C6_winner_amended pvalStd varZero varSome).1 "ctr"
      (by simp [calculate_statistical_significance, varZero, insufficientResult])
  · refine (C6_winner_amended pvalStd varMillionA varMillionB).2.1 ?_
    have hchi : chi2_crit < chi2_contingency 140 999860 60 999940 := by
      norm_num [chi2_contingency, yatesCell, chi2_crit]
    norm_num [calculate_statistical_significance, varMillionA, varMillionB,
      pvalStd, hchi]

/-- The comparison result of scenario 3: significant with winner "B",
`ctr` 4.0 versus 5.51, improvement 151/551·100 %. -/
def sigAB : SignificanceResult :=
  { significant := true, p_value := 0, winner := some "B", confidence := 100,
    metric_a := 4, metric_b := 551/100, improvement := 15100/551 }

/-- The scenario-3 variations are already in name order, so Django's
`order_by('name')` returns them unchanged. -/
theorem sorted_pair : order_by_name [varA, varB] = [varA, varB] := by
  apply List.mergeSort_of_sorted
  refine List.Pairwise.cons ?_ (List.pairwise_singleton _ _)
  intro y hy
  rw [List.mem_singleton] at hy
  subst hy
  simp only [varA, varB, decide_eq_true_eq]
  rw [String.le_iff_toList_le]
  decide

/-- Scenario 3 evaluates to `sigAB`: the chi-square statistic of the table
[[340, 8160], [468, 8032]] is ≈ 21, above the 3.84 cutoff, so the
comparison is significant and B (higher ctr) wins. -/
theorem runningTest_calc :
    calculate_statistical_significance pvalStd varA varB "ctr" = sigAB := by
  have hchi : chi2_crit < chi2_contingency 340 8160 468 8032 := by
    norm_num [chi2_contingency, yatesCell, chi2_crit]
  norm_num [calculate_statistical_significance, varA, varB, ABTestVariation.ctr,
    round2, pyRound, pvalStd, hchi, sigAB, abs]

/-- The pairwise results list of scenario 3 is the single A-versus-B entry. -/
theorem runningTest_pairs :
    pairwise_results pvalStd "ctr" [varA, varB] =
      [{ variation_a := "A", variation_b := "B", result := sigAB }] := by
  simp [pairwise_results, upperPairs, runningTest_calc]
  exact ⟨rfl, rfl⟩

/-- Claim C3 (counterexample): on the running scenario-3 test the first (and
only) pairwise comparison is significant and `analyze_test` persists
winner "B", is_significant and p_value and returns a result dictionary with
status "completed" — but the `ABTest.status` field itself is never assigned,
so the persisted test still has status "running", not "completed". -/
theorem C3_counterexample :
    (analyze_test pvalStd runningTest).1 =
      AnalysisResult.completed (some "B") true sigAB ∧
    ((analyze_test pvalStd runningTest).2).winner = some "B" ∧
    ((analyze_test pvalStd runningTest).2).is_significant = true ∧
    ((analyze_test pvalStd runningTest).2).status = "running" ∧
    ((analyze_test pvalStd runningTest).2).status ≠ "completed" := by
  have hmin : check_minimum_sample_size runningTest = true := by decide
  have hstatus : runningTest.status = "running" := rfl
  have hmetric : runningTest.success_metric = "ctr" := rfl
  have hvars : runningTest.variations = [varA, varB] := rfl
  have heval : analyze_test pvalStd runningTest =
      (AnalysisResult.completed (some "B") true sigAB,
        { runningTest with
          winner := some "B", is_significant := true, p_value := some 0 }) := by
    simp [analyze_test, hstatus, hmin, hvars, hmetric, sorted_pair,
      runningTest_pairs, sigAB]
  rw [heval]
  refine ⟨rfl, rfl, rfl, rfl, by decide⟩

/-- Claim C3 (amended): on a running test meeting the sample floor with at
least 2 variations, if the first pairwise comparison (i < j over variations
ordered by name) is significant, `analyze_test` adopts its winner label,
persists its p_value and is_significant=true, and RETURNS a dictionary with
status "completed" — but the test's own status field is left unchanged
(still "running"); if no pairwise comparison is significant it returns
status "inconclusive" with all pairwise details and the test is left
unmodified. -/
theorem C3_first_pair_decision (pval : ℚ → ℚ) (ab_test : ABTest)
    (r : PairResult) (rest : List PairResult)
    (hrun : ab_test.status = "running")
    (hsize : check_minimum_sample_size ab_test = true)
    (hlen : ¬ (order_by_name ab_test.variations).length < 2)
    (hres : pairwise_results pval ab_test.success_metric
      (order_by_name ab_test.variations) = r :: rest) :
    (r.result.significant = true →
      analyze_test pval ab_test =
        (AnalysisResult.completed r.result.winner true r.result,
          { ab_test with
            winner := r.result.winner, is_significant := true,
            p_value := some r.result.p_value }) ∧
      ((analyze_test pval ab_test).2).status = ab_test.status) ∧
    ((∀ pr ∈ r :: rest, pr.result.significant = false) →
      analyze_test pval ab_test =
        (AnalysisResult.inconclusive "No statistically significant winner yet"
          (r :: rest), ab_test)) := by
  constructor
  · intro hsig
    have heq : analyze_test pval ab_test =
        (AnalysisResult.completed r.result.winner true r.result,
          { ab_test with
            winner := r.result.winner, is_significant := true,
            p_value := some r.result.p_value }) := by
      simp [analyze_test, hrun, hsize, hlen, hres, hsig]
    exact ⟨heq, by rw [heq]⟩
  · intro hall
    have hsig : r.result.significant = false := hall r (List.mem_cons_self r rest)
    simp [analyze_test, hrun, hsize, hlen, hres, hsig]

/-- Witness for C3 at the concrete scenario-3 test: the significant branch,
applied at the single A-versus-B pair. -/
theorem C3_first_pair_decision_witness :
    analyze_test pvalStd runningTest =
      (AnalysisResult.completed (some "B") true sigAB,
        { runningTest with
          winner := some "B", is_significant := true, p_value := some 0 }) :=
  ((C3_first_pair_decision pvalStd runningTest
      { variation_a := "A", variation_b := "B", result := sigAB } []
      rfl (by decide)
      (by show ¬ (order_by_name [varA, varB]).length < 2
          rw [sorted_pair]; decide)
      (by show pairwise_results pvalStd "ctr" (order_by_name [varA, varB]) =
            [{ variation_a := "A", variation_b := "B", result := sigAB }]
          rw [sorted_pair, runningTest_pairs])).1 rfl).1

/-- Claim C10: `get_recommendation` is not read-only — on a running test
meeting the sample floor whose first pairwise comparison is significant, it
invokes `analyze_test`, which persists winner, is_significant and p_value
onto the test, and it returns the single high-priority "action"
recommendation. -/
theorem C10_get_recommendation_mutates (pval : ℚ → ℚ) (ab_test : ABTest)
    (r : PairResult) (rest : List PairResult)
    (hrun : ab_test.status = "running")
    (hsize : check_minimum_sample_size ab_test = true)
    (hlen : ¬ (order_by_name ab_test.variations).length < 2)
    (hres : pairwise_results pval ab_test.success_metric
      (order_by_name ab_test.variations) = r :: rest)
    (hsig : r.result.significant = true) :
    (get_recommendation pval ab_test).2 =
      { ab_test with
        winner := r.result.winner, is_significant := true,
        p_value := some r.result.p_value } ∧
    (get_recommendation pval ab_test).1 =
      [{ type := "action",
         message := winnerMessage r.result.winner r.result.improvement,
         priority := "high" }] := by
  have heq : analyze_test pval ab_test =
      (AnalysisResult.completed r.result.winner true r.result,
        { ab_test with
          winner := r.result.winner, is_significant := true,
          p_value := some r.result.p_value }) := by
    simp [analyze_test, hrun, hsize, hlen, hres, hsig]
  constructor
  · simp [get_recommendation, heq]
  · simp [get_recommendation, heq]

/-- Witness for C10 at the concrete scenario-3 test: the read query leaves
the test with winner "B", is_significant true and p_value persisted. -/
theorem C10_get_recommendation_mutates_witness :
    (get_recommendation pvalStd runningTest).2 =
      { runningTest with
        winner := some "B", is_significant := true, p_value := some 0 } :=
  (C10_get_recommendation_mutates pvalStd runningTest
      { variation_a := "A", variation_b := "B", result := sigAB } []
      rfl (by decide)
      (by show ¬ (order_by_name [varA, varB]).length < 2
          rw [sorted_pair]; decide)
      (by show pairwise_results pvalStd "ctr" (order_by_name [varA, varB]) =
            [{ variation_a := "A", variation_b := "B", result := sigAB }]
          rw [sorted_pair, runningTest_pairs])
      rfl).1

/-- The slice of a top/worst campaign that
`WeeklyReportView._generate_weekly_recommendations` reads: its title and its
summary's performance score. -/
structure TopCampaignInfo where
  title : String
  performance_score : ℕ
deriving DecidableEq

/-- The keyword arguments of `_generate_weekly_recommendations`
(core/views.py lines 786-788), with `insights` reduced to the one key the
rule table reads (`roas`). -/
structure WeeklyMetrics where
  avg_ctr : ℚ
  conversion_rate : ℚ
  click_growth : ℚ
  total_spend : ℚ
  active_campaigns : ℕ
  ads_generated : ℕ
  top_campaign : Option TopCampaignInfo
  roas : ℚ
deriving DecidableEq

/-- One recommendation dictionary of the weekly report rule table. -/
structure WeeklyRecommendation where
  category : String
  priority : String
  title : String
  description : String
  action : String
  impact : String
  metric : String
  current : String
  target : String
deriving DecidableEq

/-- Rule: CTR below 2%. -/
def recImproveCtr (m : WeeklyMetrics) : WeeklyRecommendation :=
  let c := toString m.avg_ctr
  { category := "Performance", priority := "high",
    title := "Improve Click-Through Rate",
    description := s!"Your weekly CTR is {c}%, which is below the 3-5% industry benchmark. Test new headlines and visuals.",
    action := "A/B Test Creatives", impact := "+50-100% potential CTR increase",
    metric := "CTR", current := s!"{c}%", target := "3-5%" }

/-- Rule: CTR at or above 5%. -/
def recScaleUp (m : WeeklyMetrics) : WeeklyRecommendation :=
  let c := toString m.avg_ctr
  { category := "Performance", priority := "high",
    title := "Excellent Performance - Scale Up",
    description := s!"Your {c}% CTR is outstanding! Scale your best campaigns to maximize results.",
    action := "Increase Budget", impact := "+100-200% potential reach",
    metric := "CTR", current := s!"{c}%", target := "Maintain" }

/-- Rule: good traffic but conversion rate below 5%. -/
def recFunnel (m : WeeklyMetrics) : WeeklyRecommendation :=
  let c := toString m.avg_ctr
  let v := toString m.conversion_rate
  { category := "Optimization", priority := "high",
    title := "Optimize Conversion Funnel",
    description := s!"You have good traffic ({c}% CTR) but low conversions ({v}%). Review landing pages.",
    action := "Optimize Landing Page", impact := "+30-60% conversion increase",
    metric := "Conversion Rate", current := s!"{v}%", target := "5-10%" }

/-- Rule: click growth below -10%. -/
def recDecline (m : WeeklyMetrics) : WeeklyRecommendation :=
  let g := toString m.click_growth
  { category := "Engagement", priority := "high",
    title := "Reverse Declining Engagement",
    description := s!"Engagement dropped {g}% this week. Refresh ad creatives and review audience targeting.",
    action := "Refresh Campaign", impact := "Reverse negative trend",
    metric := "Weekly Growth", current := s!"{g}%", target := "+10%" }

/-- Rule: click growth above 20%. -/
def recMomentum (m : WeeklyMetrics) : WeeklyRecommendation :=
  let g := toString m.click_growth
  { category := "Growth", priority := "medium",
    title := "Capitalize on Momentum",
    description := s!"Strong {g}% growth! Now is the time to increase investment and expand reach.",
    action := "Scale Investment", impact := "Maximize growth period",
    metric := "Weekly Growth", current := s!"{g}%", target := "Sustain" }

/-- Rule: fewer than 5 ads generated this week. -/
def recContent (m : WeeklyMetrics) : WeeklyRecommendation :=
  let a := toString m.ads_generated
  { category := "Content", priority := "medium",
    title := "Increase Ad Variations",
    description := s!"Only {a} ads created this week. More variations improve testing effectiveness.",
    action := "Generate 5+ Variations", impact := "+25% optimization potential",
    metric := "Content Volume", current := s!"{a} ads", target := "10+ ads/week" }

/-- Rule: positive spend with ROAS below 2. -/
def recRoas (m : WeeklyMetrics) : WeeklyRecommendation :=
  let r := toString m.roas
  { category := "Budget", priority := "high",
    title := "Improve Return on Ad Spend",
    description := s!"Current ROAS is {r}x. Review targeting and pause low-performing campaigns.",
    action := "Optimize Budget Allocation", impact := "+50-100% ROAS improvement",
    metric := "ROAS", current := s!"{r}x", target := "3-5x" }

/-- Rule: no active campaigns. -/
def recLaunch : WeeklyRecommendation :=
  { category := "Campaigns", priority := "high",
    title := "Launch Active Campaigns",
    description := "No active campaigns running. Create and launch campaigns to start generating results.",
    action := "Create Campaign", impact := "Begin generating ROI",
    metric := "Active Campaigns", current := "0", target := "3-5" }

/-- Rule: a top campaign scoring above 70. -/
def recScaleTop (top : TopCampaignInfo) : WeeklyRecommendation :=
  let t := top.title
  let sc := toString top.performance_score
  { category := "Scaling", priority := "medium",
    title := s!"Scale Top Performer: {t}",
    description := s!"This campaign has {sc}/100 score. Allocate more budget.",
    action := "Increase Budget by 25%", impact := "+30-50% additional reach",
    metric := "Performance Score", current := s!"{sc}/100", target := "Maximize" }

/-- The rule-table emission list of `_generate_weekly_recommendations`
(core/views.py lines 790-912), in source order: one conditional append per
rule, with the two if/elif pairs exclusive. -/
def weekly_rule_list (m : WeeklyMetrics) : List WeeklyRecommendation :=
  (if m.avg_ctr < 2 then [recImproveCtr m]
    else if m.avg_ctr ≥ 5 then [recScaleUp m] else [])
  ++ (if m.conversion_rate < 5 ∧ m.avg_ctr > 2 then [recFunnel m] else [])
  ++ (if m.click_growth < -10 then [recDecline m]
    else if m.click_growth > 20 then [recMomentum m] else [])
  ++ (if m.ads_generated < 5 then [recContent m] else [])
  ++ (if m.total_spend > 0 ∧ m.roas < 2 then [recRoas m] else [])
  ++ (if m.active_campaigns = 0 then [recLaunch] else [])
  ++ (match m.top_campaign with
    | some top => if top.performance_score > 70 then [recScaleTop top] else []
    | none => [])

/-- The sort key of the final `recommendations.sort`:
`priority_order = {'high': 0, 'medium': 1, 'low': 2}` with `.get(…, 3)` for
anything else. -/
def priority_order (p : String) : ℕ :=
  if p = "high" then 0 else if p = "medium" then 1 else if p = "low" then 2 else 3

/-- The comparator corresponding to Python's stable `list.sort` by the
`priority_order` key. -/
def priority_le (a b : WeeklyRecommendation) : Bool :=
  decide (priority_order a.priority ≤ priority_order b.priority)

/-- `WeeklyReportView._generate_weekly_recommendations` (core/views.py lines
786-918): emit the rule table, stably sort by priority, return the first
six. -/
def generate_weekly_recommendations (m : WeeklyMetrics) :
    List WeeklyRecommendation :=
  ((weekly_rule_list m).mergeSort priority_le).take 6

/-- Transitivity of the priority comparator. -/
theorem priority_le_trans (a b c : WeeklyRecommendation) :
    priority_le a b = true → priority_le b c = true → priority_le a c = true := by
  simp only [priority_le, decide_eq_true_eq]
  exact Nat.le_trans

/-- Totality of the priority comparator. -/
theorem priority_le_total (a b : WeeklyRecommendation) :
    (priority_le a b || priority_le b a) = true := by
  simp only [priority_le, Bool.or_eq_true, decide_eq_true_eq]
  exact Nat.le_total _ _

/-- Claim C9: for every metrics input the weekly recommendation list is
sorted by priority rank (every "high" entry before every "medium" before
every "low"), within each priority the entries appear in rule-table emission
order (the output's slice at any priority is a prefix of the emission list's
slice at that priority — the sort is stable and the cap keeps a prefix), and
the list has length at most 6. -/
theorem C9_recommendations_sorted_capped (m : WeeklyMetrics) :
    (generate_weekly_recommendations m).Pairwise
      (fun a b => priority_order a.priority ≤ priority_order b.priority) ∧
    (∀ p : String,
      (generate_weekly_recommendations m).filter
          (fun r => decide (r.priority = p)) <+:
        (weekly_rule_list m).filter (fun r => decide (r.priority = p))) ∧
    (generate_weekly_recommendations m).length ≤ 6 := by
  refine ⟨?_, ?_, ?_⟩
  · have hp := List.sorted_mergeSort priority_le_trans priority_le_total
      (weekly_rule_list m)
    have hp6 := List.Pairwise.sublist
      (List.take_sublist 6 ((weekly_rule_list m).mergeSort priority_le)) hp
    exact hp6.imp (fun h => by
      simpa only [priority_le, decide_eq_true_eq] using h)
  · intro p
    have hpw : ((weekly_rule_list m).filter
        (fun r => decide (r.priority = p))).Pairwise
        (fun a b => priority_le a b = true) := by
      refine List.pairwise_of_forall_mem_list ?_
      intro a ha b hb
      have ha' := List.of_mem_filter ha
      have hb' := List.of_mem_filter hb
      simp only [decide_eq_true_eq] at ha' hb'
      simp only [priority_le, ha', hb', decide_eq_true_eq, le_refl]
    have hsub : ((weekly_rule_list m).filter
        (fun r => decide (r.priority = p))).Sublist
        ((weekly_rule_list m).mergeSort priority_le) :=
      List.sublist_mergeSort priority_le_trans priority_le_total hpw
        (List.filter_sublist _)
    have hself : ((weekly_rule_list m).filter
        (fun r => decide (r.priority = p))).filter
        (fun r => decide (r.priority = p)) =
        (weekly_rule_list m).filter (fun r => decide (r.priority = p)) := by
      rw [List.filter_eq_self]
      intro a ha
      simpa using List.of_mem_filter ha
    have hsub2 : ((weekly_rule_list m).filter
        (fun r => decide (r.priority = p))).Sublist
        (((weekly_rule_list m).mergeSort priority_le).filter
          (fun r => decide (r.priority = p))) := by
      have := hsub.filter (fun r => decide (r.priority = p))
      rwa [hself] at this
    have hperm : (((weekly_rule_list m).mergeSort priority_le).filter
        (fun r => decide (r.priority = p))).Perm
        ((weekly_rule_list m).filter (fun r => decide (r.priority = p))) :=
      (List.mergeSort_perm (weekly_rule_list m) priority_le).filter _
    have heq : (weekly_rule_list m).filter (fun r => decide (r.priority = p)) =
        ((weekly_rule_list m).mergeSort priority_le).filter
          (fun r => decide (r.priority = p)) :=
      hsub2.eq_of_length hperm.length_eq.symm
    have hpre := List.IsPrefix.filter (fun r => decide (r.priority = p))
      (List.take_prefix 6 ((weekly_rule_list m).mergeSort priority_le))
    rw [← heq] at hpre
    exact hpre
  · exact List.length_take_le 6 _
